import Mathlib

/-!
Verification of the core of `blog.py` (YouTube video → blog post generator).

The Python source is shallowly embedded: strings are modelled as `List Char`
(ASCII level; Python's `\w` is modelled as ASCII alphanumerics plus `_`),
the regex searches of `extract_video_id` are modelled operationally
(leftmost match, alternation tried left to right, greedy capture),
exceptions become `Option`/explicit result values, and the external
collaborators (YouTube caption API, pytube, Whisper, OpenAI) become
explicit parameters / oracles.
-/

namespace Blog

/-- Model of Python's regex character class `[\w-]` at the ASCII level:
letters, digits, underscore and hyphen. -/
def isWordChar (c : Char) : Bool :=
  c.isAlphanum || c == '_' || c == '-'

/-- Match a literal pattern at the front of `s`: if `lit` is a prefix of `s`,
return the remainder, otherwise `none`.  This is the primitive used to model
matching the literal parts of the regexes in `extract_video_id`. -/
def dropLit : List Char → List Char → Option (List Char)
  | [], s => some s
  | _ :: _, [] => none
  | p :: ps, c :: cs => if p == c then dropLit ps cs else none

/-- Model of the greedy capture group `([\w-]+)`: the maximal run of word
characters at the front of `s`, failing when that run is empty. -/
def firstWordRun (s : List Char) : Option (List Char) :=
  match s.takeWhile isWordChar with
  | [] => none
  | c :: r => some (c :: r)

/-- Literal part of the first alternative of pattern 1 of
`extract_video_id`: `youtube\.com\/watch\?v=`. -/
def watchMarker : List Char := "youtube.com/watch?v=".toList

/-- Literal head of the second alternative of pattern 1: `youtu`.  The
following `.` in the source pattern `youtu.be\/` is an *unescaped* regex
dot and matches any character. -/
def youtuMarker : List Char := "youtu".toList

/-- Literal tail of the second alternative of pattern 1: `be/`. -/
def beMarker : List Char := "be/".toList

/-- Literal of pattern 2 of `extract_video_id`: `youtube\.com\/embed\/`. -/
def embedMarker : List Char := "youtube.com/embed/".toList

/-- Literal of pattern 3 of `extract_video_id`: `youtube\.com\/v\/`. -/
def vMarker : List Char := "youtube.com/v/".toList

/-- One attempt of the second alternative of pattern 1 at the current
position: `youtu`, then any single character (the unescaped dot), then
`be/`; returns the rest of the input on success. -/
def youtuDotBeAt (s : List Char) : Option (List Char) :=
  match dropLit youtuMarker s with
  | some (_ :: r) => dropLit beMarker r
  | _ => none

/-- Attempt of alternative `youtube\.com\/watch\?v=([\w-]+)` at the current
position. -/
def tryAlt1 (s : List Char) : Option (List Char) :=
  (dropLit watchMarker s).bind firstWordRun

/-- Attempt of alternative `youtu.be\/([\w-]+)` at the current position. -/
def tryAlt2 (s : List Char) : Option (List Char) :=
  (youtuDotBeAt s).bind firstWordRun

/-- `re.search` with pattern 1 of `extract_video_id`
(`(?:youtube\.com\/watch\?v=|youtu.be\/)([\w-]+)`): scan positions left to
right; at each position try the two alternatives in order; return the
capture of the first success. -/
def pat1Search : List Char → Option (List Char)
  | [] => none
  | c :: t =>
    match tryAlt1 (c :: t) with
    | some r => some r
    | none =>
      match tryAlt2 (c :: t) with
      | some r => some r
      | none => pat1Search t

/-- `re.search` with a single-literal pattern `lit([\w-]+)` (used for
patterns 2 and 3 of `extract_video_id`). -/
def litSearch (m : List Char) : List Char → Option (List Char)
  | [] => none
  | c :: t =>
    match (dropLit m (c :: t)).bind firstWordRun with
    | some r => some r
    | none => litSearch m t

/-- Embedding of `extract_video_id` (blog.py lines 22-34): try the three
patterns in order, returning the first captured group, or `none` (Python
`None`) when no pattern matches anywhere in the input. -/
def extract_video_id (url : List Char) : Option (List Char) :=
  match pat1Search url with
  | some r => some r
  | none =>
    match litSearch embedMarker url with
    | some r => some r
    | none => litSearch vMarker url

/-- The canonical `watch` URL shape wrapping an id. -/
def watchURL (id : List Char) : List Char :=
  "https://www.youtube.com/watch?v=".toList ++ id

/-- The canonical short URL shape wrapping an id. -/
def shortURL (id : List Char) : List Char :=
  "https://youtu.be/".toList ++ id

/-- The canonical `embed` URL shape wrapping an id. -/
def embedURL (id : List Char) : List Char :=
  "https://www.youtube.com/embed/".toList ++ id

/-- The canonical `v` URL shape wrapping an id. -/
def vURL (id : List Char) : List Char :=
  "https://www.youtube.com/v/".toList ++ id

/-- Substring occurrence test: does `pat` occur (contiguously) anywhere in
the second argument? -/
def containsSub (pat : List Char) : List Char → Bool
  | [] => pat.isEmpty
  | c :: t => (dropLit pat (c :: t)).isSome || containsSub pat t

/-- Does `youtu` + any one character + `be/` occur anywhere in the input?
This is the shape actually accepted by the unescaped-dot alternative
`youtu.be\/` of pattern 1. -/
def youtuAnyBe : List Char → Bool
  | [] => false
  | c :: t => (youtuDotBeAt (c :: t)).isSome || youtuAnyBe t

/-- Is the head of the list (if any) outside the class `[\w-]`?  Used to
state that a query/fragment suffix begins right after the id. -/
def headNonWord : List Char → Bool
  | [] => true
  | c :: _ => !isWordChar c

/-! ### `transcribe_audio` (blog.py lines 36-85)

One retry-loop iteration of `transcribe_audio` is driven by the behaviour of
the external world (pytube + Whisper) during that attempt; the possible
behaviours are the `AttemptResult` constructors below, mirroring the exit
points of the loop body.  Temporary files are modelled by the (0-indexed)
number of the attempt that created them: the file name
`temp_audio_<id>_<int(time.time())>` is distinct for each attempt because
at least one full second of backoff sleep separates consecutive attempts. -/

/-- Outcome of the body of one loop iteration of `transcribe_audio`:
`noStream` — `yt.streams.filter(only_audio=True)` has no result, line 53
raises before the temp-file name is assigned; `downloadError` — the
download call raises (e.g. timeout) before creating the file; `emptyFile` —
the download leaves a missing/zero-byte file, line 63 raises with the file
on disk; `transcribeError` — Whisper raises at line 67 with the file on
disk; `success` — transcription returns text and line 70 removes the
file. -/
inductive AttemptResult where
  | noStream : AttemptResult
  | downloadError : String → AttemptResult
  | emptyFile : AttemptResult
  | transcribeError : String → AttemptResult
  | success : String → AttemptResult
deriving DecidableEq

/-- Did the attempt reach the `return result["text"]` at line 71? -/
def isSuccess : AttemptResult → Bool
  | .success _ => true
  | _ => false

/-- The message of the exception raised by a failing attempt (the string
arguments of `raise Exception(...)` at lines 53 and 63, or the message of
the external error). -/
def attemptErrorMsg : AttemptResult → Option String
  | .noStream => some ("No audio stream available")
  | .downloadError m => some m
  | .emptyFile => some ("Download failed or empty file")
  | .transcribeError m => some m
  | .success _ => none

/-- File-system and local-variable effect of one loop iteration (attempt
number `k`): returns (value returned by the body if it reached line 71,
disk contents afterwards, the value assigned to `temp_file` by this
iteration if line 56 executed). -/
def attemptEffects (k : Nat) (r : AttemptResult) (disk : List Nat) :
    Option String × List Nat × Option Nat :=
  match r with
  | .noStream => (none, disk, none)
  | .downloadError _ => (none, disk, some k)
  | .emptyFile => (none, disk ++ [k], some k)
  | .transcribeError _ => (none, disk ++ [k], some k)
  | .success t => (some t, disk, some k)

/-- Observable outcome of a whole `transcribe_audio` call: the returned
value (`None` is `none`), the temporary files still on disk after the
call, the backoff sleeps performed (in seconds, in order), the number of
loop iterations executed, and the `st.error` message shown by the outer
handler (if any). -/
structure TAResult where
  result : Option String
  disk : List Nat
  sleeps : List Nat
  attempts : Nat
  errorShown : Option String
deriving DecidableEq

/-- State after the retry loop: the raw return value, disk contents, the
current value of the `temp_file` variable, sleeps, iteration count, and
the exception escaping the loop (re-raised at line 75), if any. -/
structure LoopOut where
  result : Option String
  disk : List Nat
  tempVar : Option Nat
  sleeps : List Nat
  attempts : Nat
  raised : Option String

/-- The `for attempt in range(max_retries)` loop of `transcribe_audio`
(lines 47-77): run the remaining attempts; a non-final failure sleeps
`2^attempt` seconds and continues; the final failure re-raises its
exception (line 75).  Note the loop body never deletes the temp file of a
failed attempt. -/
def runRetries : List AttemptResult → Nat → List Nat → Option Nat → List Nat → Nat → LoopOut
  | [], _, disk, tv, sleeps, attempts => ⟨none, disk, tv, sleeps, attempts, none⟩
  | r :: rest, k, disk, tv, sleeps, attempts =>
    match attemptEffects k r disk with
    | (res, disk1, tvNew) =>
      let tv1 := match tvNew with | some f => some f | none => tv
      match res with
      | some t => ⟨some t, disk1, tv1, sleeps, attempts + 1, none⟩
      | none =>
        match rest with
        | [] => ⟨none, disk1, tv1, sleeps, attempts + 1, attemptErrorMsg r⟩
        | _ :: _ => runRetries rest (k + 1) disk1 tv1 (sleeps ++ [2 ^ k]) (attempts + 1)

/-- Embedding of `transcribe_audio` (lines 36-85) for a given behaviour of
the three possible attempts: run the loop (`max_retries = 3`); an
exception escaping the loop is caught by the outer handler which shows
`st.error("Error transcribing audio: ...")` and returns `None`; the
`finally` block (lines 82-85) removes the file named by the *current*
value of `temp_file`, if it exists on disk. -/
def transcribe_audio (r0 r1 r2 : AttemptResult) : TAResult :=
  let out := runRetries [r0, r1, r2] 0 [] none [] 0
  { result := out.result
    disk := match out.tempVar with | none => out.disk | some f => out.disk.erase f
    sleeps := out.sleeps
    attempts := out.attempts
    errorShown := out.raised.map (fun m => ("Error transcribing audio: " ++ m)) }

/-! ### `get_video_transcript` (blog.py lines 87-117) -/

/-- A caption track as exposed by `youtube_transcript_api`: its language
code and the `text` fields of its segments in order.  Fetching a track
yields its segments; translating it is modelled as retagging the language
(the translated text itself is produced by the external service and is
irrelevant to the control flow verified here). -/
structure CapTrack where
  lang : String
  segments : List String
deriving DecidableEq

/-- Model of `TranscriptList.find_transcript(language_codes)`: the first
track whose language code is among the requested ones; `none` models the
`NoTranscriptFound` exception. -/
def find_transcript (langs : List String) (tracks : List CapTrack) : Option CapTrack :=
  tracks.find? (fun t => langs.contains t.lang)

/-- Model of `Transcript.translate('en')`. -/
def translateTrack (t : CapTrack) : CapTrack :=
  { t with lang := "en" }

/-- Line 101: `' '.join([item['text'] for item in transcript.fetch()])`. -/
def joinSegments (t : CapTrack) : String :=
  String.intercalate (" ") t.segments

/-- Embedding of the caption branch of `get_video_transcript` (lines
91-102): try `find_transcript(['en'])`; on failure the `except` branch at
line 98 calls `find_transcript(['en'])` *again* (not the first available
track) and would translate its result; if that second call also raises,
the exception escapes to the outer handler (`none`). -/
def captionStage (tracks : List CapTrack) : Option String :=
  match find_transcript (("en") :: []) tracks with
  | some t => some (joinSegments t)
  | none =>
    match find_transcript (("en") :: []) tracks with
    | some t => some (joinSegments (translateTrack t))
    | none => none

/-- Modelled from the spec (§4.2): the documented caption behaviour — if an
English track exists use it, otherwise fetch the *first available* track
and translate it to English.  Used only to compare against the code's
`captionStage`. -/
def specCaptionStage (tracks : List CapTrack) : Option String :=
  match find_transcript (("en") :: []) tracks with
  | some t => some (joinSegments t)
  | none =>
    match tracks with
    | [] => none
    | t :: _ => some (joinSegments (translateTrack t))

/-- Embedding of `get_video_transcript` (lines 87-117).  `listing = none`
models `list_transcripts` itself raising (private video / no captions);
any exception in the caption branch falls to the handler at line 104,
which runs the audio fallback and returns its result unchanged (lines
107-117) — note there is no emptiness check on a successful caption
result. -/
def get_video_transcript (listing : Option (List CapTrack))
    (r0 r1 r2 : AttemptResult) : Option String :=
  match listing with
  | some tracks =>
    match captionStage tracks with
    | some text => some text
    | none => (transcribe_audio r0 r1 r2).result
  | none => (transcribe_audio r0 r1 r2).result

/-- Python truthiness of the value returned by `get_video_transcript`, as
tested by the caller (`if not transcript: return` in `main`): `None` and
the empty string are falsy, every other string is truthy. -/
def pythonTruthy (r : Option String) : Bool :=
  match r with
  | none => false
  | some t => !(t == "")

/-- Is `s` non-empty but consisting only of whitespace characters? -/
def isWhitespaceOnly (s : String) : Bool :=
  !(s == "") && s.toList.all (fun c => c.isWhitespace)

/-! ### `get_video_details` (blog.py lines 119-137) -/

/-- Video snippet fields used by `get_video_details` (strings kept as
`List Char` to match the prompt-building model below). -/
structure Snippet where
  title : List Char
  description : List Char

/-- Embedding of `get_video_details`: the API call either raises (handled
at line 135, returning `None`) or yields the `items` list of the response;
a non-empty list yields the first item's title/description (lines
128-133), an empty one yields `None` (line 134). -/
def get_video_details (resp : Except String (List Snippet)) : Option Snippet :=
  match resp with
  | .error _ => none
  | .ok items =>
    match items with
    | s :: _ => some ⟨s.title, s.description⟩
    | [] => none

/-! ### `generate_article_from_transcript` (blog.py lines 166-216)

The language model is an oracle `system message → user message → reply`;
the function performs exactly two oracle calls (summarize, then compose).
The f-strings are transcribed byte-for-byte from the source; prompts are
built as right-nested appends. -/

/-- A single-quote character (used around the title in the compose
prompt). -/
def squote : Char := Char.ofNat 39

/-- Lines 173-178: the `context` block, empty when `video_details` is
falsy. -/
def ctxOf (vd : Option Snippet) : List Char :=
  match vd with
  | none => []
  | some d =>
    "\n        Video Title: ".toList ++
      (d.title ++
        ("\n        Video Description: ".toList ++
          (d.description ++ "\n        ".toList)))

/-- Lines 180-182: the summarize-stage user prompt, with the transcript
truncated to its first 1500 characters (`transcript[:1500]`). -/
def summaryPromptOf (ctx transcript : List Char) : List Char :=
  "First, summarize the key points from this transcript and context:\n    ".toList ++
    (ctx ++
      ("\n    Transcript excerpt: ".toList ++
        (transcript.take 1500 ++ "...".toList)))

/-- Line 196: `{'detailed' if style == 'detailed' else 'concise'}`. -/
def styleWord (style : String) : List Char :=
  if style == "detailed" then "detailed".toList else "concise".toList

/-- Line 205: `{'comprehensive and detailed' if style == 'detailed' else
'concise and focused'}`. -/
def styleMake (style : String) : List Char :=
  if style == "detailed" then "comprehensive and detailed".toList
  else "concise and focused".toList

/-- Lines 196-206: the compose-stage user prompt. -/
def contentPromptOf (style : String) (title ctx summary transcript : List Char) : List Char :=
  "Write a ".toList ++
    (styleWord style ++
      ((" blog post with the title: ".toList ++ [squote]) ++
        (title ++
          (([squote] ++ "\n    \n    Context: ".toList) ++
            (ctx ++
              ("\n    \n    Summary of content: ".toList ++
                (summary ++
                  ("\n    \n    Full transcript: ".toList ++
                    (transcript ++
                      ("\n    \n    Convert this into a well-structured blog post while maintaining the speakers voice and key insights.\n    Make it ".toList ++
                        (styleMake style ++
                          ".\n    Use proper markdown formatting to create an engaging article.".toList)))))))))))

/-- Text block at lines 140-150 of the source — the *intended* detailed
system instruction.  (As shown by `instrRegion` below, the stray opener at
line 138 prevents Python from ever binding this name.) -/
def SYSTEM_INSTRUCTION_DETAILED : List Char :=
  ("\nYou are converting the video transcript into a detailed blog post in the speakers voice. Follow these guidelines:\n1. Use the exact title provided in the title area.\n2. Create a comprehensive, detailed blog post that expands on each point.\n3. Include abundant examples and explanations.\n4. Use \"I\", \"my\", and \"we\" to represent the speakers direct thoughts and experiences.\n5. Maintain the speakers expertise and insights with detailed elaboration.\n6. Organize content with detailed sections and subsections.\n7. Use markdown formatting for headers (##) and emphasis (*).\n8. Provide in-depth context for each major point.\n9. Include relevant examples and case studies mentioned.\n10. End with comprehensive concluding thoughts.\n").toList

/-- Text block at lines 153-163 of the source — the concise system
instruction. -/
def SYSTEM_INSTRUCTION_CONCISE : List Char :=
  ("\nYou are converting the video transcript into a concise blog post in the speakers voice. Follow these guidelines:\n1. Use the exact title provided in the title area.\n2. Create a brief, focused blog post that captures key points succinctly.\n3. Keep paragraphs short and focused.\n4. Use \"I\", \"my\", and \"we\" to represent the speakers direct thoughts and experiences.\n5. Maintain the speakers core message without excessive detail.\n6. Organize content with minimal, essential sections.\n7. Use markdown formatting for headers (##) and emphasis (*).\n8. Focus on the most important insights only.\n9. Include only the most impactful examples.\n10. End with brief, actionable takeaways.\n").toList

/-- Line 170: `SYSTEM_INSTRUCTION_DETAILED if style == "detailed" else
SYSTEM_INSTRUCTION_CONCISE`. -/
def systemInstructionFor (style : String) : List Char :=
  if style == "detailed" then SYSTEM_INSTRUCTION_DETAILED else SYSTEM_INSTRUCTION_CONCISE

/-- Line 188: the fixed system message of the summarize call. -/
def summarizeSystem : List Char :=
  "Summarize the key points from this video transcript and context.".toList

/-- The observables of one `generate_article_from_transcript` call: the
two user prompts, the stage-1 summary, and the returned article. -/
structure GenResult where
  summary_prompt : List Char
  summary : List Char
  content_prompt : List Char
  article : List Char

/-- Embedding of `generate_article_from_transcript` (lines 166-216): build
the context block, do the summarize call, build the compose prompt from
title/context/summary/transcript, do the compose call, and return the
model's reply verbatim (line 216). -/
def generate_article_from_transcript (oracle : List Char → List Char → List Char)
    (title transcript : List Char) (video_details : Option Snippet)
    (style : String) : GenResult :=
  let context := ctxOf video_details
  let sp := summaryPromptOf context transcript
  let summary := oracle summarizeSystem sp
  let cp := contentPromptOf style title context summary transcript
  ⟨sp, summary, cp, oracle (systemInstructionFor style) cp⟩

/-- Contiguous-substring occurrence as a proposition over `List Char`. -/
def containsList (hay sub : List Char) : Prop :=
  ∃ l r, hay = l ++ (sub ++ r)

/-- Does `s` start with `t`? -/
def opensWith (t s : List Char) : Bool :=
  s.take t.length == t

/-! ### The module-level constant region (blog.py lines 138-151)

Line 138 reads `SYSTEM_INSTRUCTION = \x22\x22\x22` — a stray opener whose
triple-quoted string is closed by the `\x22\x22\x22` at the end of line
139.  Python therefore binds `SYSTEM_INSTRUCTION` to the text of line 139
and then hits the bare prose of line 140, which is not a statement.  The
scanner below embeds exactly this tokenization: split the region on
`\x22\x22\x22` delimiters, so code fragments and string literals
alternate, and accept a code fragment only if it is an assignment prelude
`NAME = ` (optionally preceded by newlines). -/

/-- Verbatim text of blog.py lines 138-151. -/
def instrRegion : String :=
  "SYSTEM_INSTRUCTION = \"\"\"\nSYSTEM_INSTRUCTION_DETAILED = \"\"\"\nYou are converting the video transcript into a detailed blog post in the speakers voice. Follow these guidelines:\n1. Use the exact title provided in the title area.\n2. Create a comprehensive, detailed blog post that expands on each point.\n3. Include abundant examples and explanations.\n4. Use \"I\", \"my\", and \"we\" to represent the speakers direct thoughts and experiences.\n5. Maintain the speakers expertise and insights with detailed elaboration.\n6. Organize content with detailed sections and subsections.\n7. Use markdown formatting for headers (##) and emphasis (*).\n8. Provide in-depth context for each major point.\n9. Include relevant examples and case studies mentioned.\n10. End with comprehensive concluding thoughts.\n\"\"\""

/-- Split a character stream at each occurrence of three consecutive
double quotes; the fragments at even indices are code, those at odd
indices are string-literal bodies. -/
def splitTriple : List Char → List (List Char)
  | '"' :: '"' :: '"' :: rest => [] :: splitTriple rest
  | c :: rest =>
    match splitTriple rest with
    | [] => [[c]]
    | seg :: segs => (c :: seg) :: segs
  | [] => [[]]

/-- Python identifier characters (ASCII). -/
def isIdentChar (c : Char) : Bool :=
  c.isAlphanum || c == '_'

/-- Accept a code fragment of the form (newlines)`NAME = ` and return the
name; anything else is not a valid statement prelude for a string
assignment. -/
def parseAssignPrelude (seg : List Char) : Option (List Char) :=
  let s1 := seg.dropWhile (fun c => c == '\n')
  let name := s1.takeWhile isIdentChar
  let rest := s1.dropWhile isIdentChar
  if !name.isEmpty && rest == " = ".toList then some name else none

/-- Walk the alternating code/string fragments, collecting the names bound
to string constants, stopping with `false` (syntax error) at the first
code fragment that is not an assignment prelude. -/
def collectBindings : List (List Char) → List (List Char) × Bool
  | [] => ([], true)
  | [code] => ([], code.all (fun c => c == '\n' || c == ' '))
  | code :: _str :: rest =>
    match parseAssignPrelude code with
    | some name =>
      match collectBindings rest with
      | (ns, ok) => (name :: ns, ok)
    | none => ([], false)

/-- The constant name the selection at line 170 refers to for each
style. -/
def selectInstructionName (style : String) : String :=
  if style == "detailed" then "SYSTEM_INSTRUCTION_DETAILED" else "SYSTEM_INSTRUCTION_CONCISE"

/-! ### Concrete test data used by the claim theorems -/

/-- A caption listing with a single French track. -/
def frTrack : CapTrack :=
  { lang := "fr", segments := ("bonjour") :: [] }

/-- An English caption track whose only segment is a single space. -/
def enWsTrack : CapTrack :=
  { lang := "en", segments := (" ") :: [] }

/-- An English caption track whose only segment is the empty string. -/
def enEmptyTrack : CapTrack :=
  { lang := "en", segments := ("") :: [] }

/-- A language-model double that ignores its prompts and always replies
with the same text (no title in front). -/
def constOracle : List Char → List Char → List Char :=
  fun _ _ => "An article that does not begin with the requested title".toList

end Blog

namespace Blog

theorem dropLit_append (p s : List Char) : dropLit p (p ++ s) = some s := by
  induction p with
  | nil => rfl
  | cons x xs ih => simp [dropLit, ih]

theorem mem_of_dropLit {p s r : List Char} (h : dropLit p s = some r) :
    ∀ c ∈ r, c ∈ s := by
  induction p generalizing s with
  | nil =>
    simp only [dropLit, Option.some.injEq] at h
    subst h; exact fun c hc => hc
  | cons x xs ih =>
    cases s with
    | nil => simp [dropLit] at h
    | cons y ys =>
      simp only [dropLit] at h
      by_cases hxy : x == y
      · rw [if_pos hxy] at h
        exact fun c hc => List.mem_cons_of_mem _ (ih h c hc)
      · rw [if_neg hxy] at h; cases h

theorem dropLit_none_of_nonword (p s : List Char)
    (hp : ∃ c ∈ p, isWordChar c = false)
    (hs : ∀ c ∈ s, isWordChar c = true) : dropLit p s = none := by
  induction p generalizing s with
  | nil => obtain ⟨c, hc, _⟩ := hp; cases hc
  | cons x xs ih =>
    cases s with
    | nil => rfl
    | cons y ys =>
      simp only [dropLit]
      by_cases hxy : x == y
      · rw [if_pos hxy]
        obtain ⟨c, hc, hcw⟩ := hp
        rcases List.mem_cons.mp hc with hcx | hcxs
        · have hy : isWordChar y = true := hs y (List.mem_cons_self _ _)
          rw [hcx, beq_iff_eq.mp hxy] at hcw
          rw [hcw] at hy; cases hy
        · exact ih ys ⟨c, hcxs, hcw⟩ (fun d hd => hs d (List.mem_cons_of_mem _ hd))
      · rw [if_neg hxy]

theorem takeWhile_word_all (s : List Char)
    (h : ∀ c ∈ s, isWordChar c = true) : s.takeWhile isWordChar = s := by
  induction s with
  | nil => rfl
  | cons c t ih =>
    simp only [List.takeWhile]
    rw [h c (List.mem_cons_self _ _)]
    simp [ih fun d hd => h d (List.mem_cons_of_mem _ hd)]

theorem takeWhile_word_append (s suf : List Char)
    (hs : ∀ c ∈ s, isWordChar c = true) (hsuf : headNonWord suf = true) :
    (s ++ suf).takeWhile isWordChar = s := by
  induction s with
  | nil =>
    cases suf with
    | nil => rfl
    | cons c t =>
      simp only [headNonWord, Bool.not_eq_true'] at hsuf
      simp [List.takeWhile, hsuf]
  | cons c t ih =>
    simp only [List.cons_append, List.takeWhile]
    rw [hs c (List.mem_cons_self _ _)]
    simp [ih fun d hd => hs d (List.mem_cons_of_mem _ hd)]

theorem firstWordRun_all (c : Char) (cs : List Char)
    (h : ∀ x ∈ c :: cs, isWordChar x = true) :
    firstWordRun (c :: cs) = some (c :: cs) := by
  unfold firstWordRun
  rw [takeWhile_word_all _ h]

theorem firstWordRun_append (c : Char) (cs suf : List Char)
    (h : ∀ x ∈ c :: cs, isWordChar x = true) (hsuf : headNonWord suf = true) :
    firstWordRun ((c :: cs) ++ suf) = some (c :: cs) := by
  unfold firstWordRun
  rw [takeWhile_word_append _ _ h hsuf]

theorem pat1Search_cons_of_alt1 {c : Char} {t r : List Char}
    (h : tryAlt1 (c :: t) = some r) : pat1Search (c :: t) = some r := by
  unfold pat1Search
  rw [h]

theorem pat1Search_cons_of_alt2 {c : Char} {t r : List Char}
    (h1 : tryAlt1 (c :: t) = none) (h2 : tryAlt2 (c :: t) = some r) :
    pat1Search (c :: t) = some r := by
  unfold pat1Search
  rw [h1, h2]

theorem litSearch_cons_of_hit {m : List Char} {c : Char} {t r : List Char}
    (h : (dropLit m (c :: t)).bind firstWordRun = some r) :
    litSearch m (c :: t) = some r := by
  unfold litSearch
  rw [h]

theorem youtuDotBeAt_none_wordOnly (s : List Char)
    (hs : ∀ c ∈ s, isWordChar c = true) : youtuDotBeAt s = none := by
  cases hd : dropLit youtuMarker s with
  | none => simp [youtuDotBeAt, hd]
  | some rest =>
    cases rest with
    | nil => simp [youtuDotBeAt, hd]
    | cons a r =>
      have hr : ∀ c ∈ r, isWordChar c = true := fun c hc =>
        hs c (mem_of_dropLit hd c (List.mem_cons_of_mem _ hc))
      simp [youtuDotBeAt, hd,
        dropLit_none_of_nonword beMarker r ⟨'/', by decide, by decide⟩ hr]

theorem tryAlt1_none_wordOnly (s : List Char)
    (hs : ∀ c ∈ s, isWordChar c = true) : tryAlt1 s = none := by
  unfold tryAlt1
  rw [dropLit_none_of_nonword watchMarker s ⟨'.', by decide, by decide⟩ hs]
  rfl

theorem tryAlt2_none_wordOnly (s : List Char)
    (hs : ∀ c ∈ s, isWordChar c = true) : tryAlt2 s = none := by
  unfold tryAlt2
  rw [youtuDotBeAt_none_wordOnly s hs]
  rfl

theorem pat1Search_none_wordOnly (s : List Char)
    (hs : ∀ c ∈ s, isWordChar c = true) : pat1Search s = none := by
  induction s with
  | nil => rfl
  | cons c t ih =>
    have ht := ih fun d hd => hs d (List.mem_cons_of_mem _ hd)
    simp [pat1Search, tryAlt1_none_wordOnly (c :: t) hs,
      tryAlt2_none_wordOnly (c :: t) hs, ht]

theorem litSearch_none_wordOnly (m : List Char)
    (hm : ∃ c ∈ m, isWordChar c = false) (s : List Char)
    (hs : ∀ c ∈ s, isWordChar c = true) : litSearch m s = none := by
  induction s with
  | nil => rfl
  | cons c t ih =>
    have h1 : dropLit m (c :: t) = none := dropLit_none_of_nonword m (c :: t) hm hs
    simp [litSearch, h1, ih fun d hd => hs d (List.mem_cons_of_mem _ hd)]

theorem containsSub_of_dropLit_append {a b s r : List Char}
    (h : dropLit (a ++ b) s = some r) : containsSub b s = true := by
  induction a generalizing s with
  | nil =>
    cases s with
    | nil =>
      cases b with
      | nil => rfl
      | cons x xs => simp [dropLit] at h
    | cons c t =>
      simp only [List.nil_append] at h
      simp [containsSub, h]
  | cons x xs ih =>
    cases s with
    | nil => simp [dropLit] at h
    | cons y ys =>
      simp only [List.cons_append, dropLit] at h
      by_cases hxy : x == y
      · rw [if_pos hxy] at h
        have hys := ih h
        simp [containsSub, hys]
      · rw [if_neg hxy] at h; cases h

theorem pat1Search_none_of_not_contains (s : List Char)
    (h1 : containsSub ("watch?v=".toList) s = false)
    (h2 : youtuAnyBe s = false) : pat1Search s = none := by
  induction s with
  | nil => rfl
  | cons c t ih =>
    have ha1 : tryAlt1 (c :: t) = none := by
      unfold tryAlt1
      cases hd : dropLit watchMarker (c :: t) with
      | none => rfl
      | some r =>
        exfalso
        have hc : containsSub ("watch?v=".toList) (c :: t) = true :=
          containsSub_of_dropLit_append (a := "youtube.com/".toList) hd
        have hc' : containsSub ("watch?v=".toList) (c :: t) = false := h1
        rw [hc] at hc'
        cases hc'
    have ha2 : tryAlt2 (c :: t) = none := by
      unfold tryAlt2
      cases hy : youtuDotBeAt (c :: t) with
      | none => rfl
      | some r =>
        exfalso
        have : youtuAnyBe (c :: t) = true := by
          simp [youtuAnyBe, hy]
        simp [this] at h2
    have h1t : containsSub ("watch?v=".toList) t = false := by
      simp only [containsSub, Bool.or_eq_false_iff] at h1
      exact h1.2
    have h2t : youtuAnyBe t = false := by
      simp only [youtuAnyBe, Bool.or_eq_false_iff] at h2
      exact h2.2
    simp [pat1Search, ha1, ha2, ih h1t h2t]

theorem litSearch_none_of_not_contains (pre short m : List Char)
    (hm : m = pre ++ short) (s : List Char)
    (h : containsSub short s = false) : litSearch m s = none := by
  induction s with
  | nil => rfl
  | cons c t ih =>
    have hd1 : dropLit m (c :: t) = none := by
      cases hd : dropLit m (c :: t) with
      | none => rfl
      | some r =>
        exfalso
        rw [hm] at hd
        have hc : containsSub short (c :: t) = true :=
          containsSub_of_dropLit_append hd
        simp [hc] at h
    have ht : containsSub short t = false := by
      simp only [containsSub, Bool.or_eq_false_iff] at h
      exact h.2
    simp [litSearch, hd1, ih ht]

theorem extract_of_pat1 {url r : List Char} (h : pat1Search url = some r) :
    extract_video_id url = some r := by
  unfold extract_video_id
  rw [h]

theorem extract_of_embed {url r : List Char} (h1 : pat1Search url = none)
    (h2 : litSearch embedMarker url = some r) :
    extract_video_id url = some r := by
  unfold extract_video_id
  rw [h1, h2]

theorem extract_of_v {url : List Char} (h1 : pat1Search url = none)
    (h2 : litSearch embedMarker url = none) :
    extract_video_id url = litSearch vMarker url := by
  unfold extract_video_id
  rw [h1, h2]

/-- C7 (counterexample): the claim "for any input matching none of the
shapes it returns the NotFound value" is false: the input
`https://youtuXbe/abc` contains none of the four shape markers
(`watch?v=`, `youtu.be/`, `embed/`, `v/`), yet `extract_video_id` returns
`abc`, because the dot in the source pattern `youtu.be\/` is an unescaped
regex dot and matches the `X`. -/
theorem C7_counterexample :
    containsSub ("watch?v=".toList) ("https://youtuXbe/abc".toList) = false ∧
    containsSub ("youtu.be/".toList) ("https://youtuXbe/abc".toList) = false ∧
    containsSub ("embed/".toList) ("https://youtuXbe/abc".toList) = false ∧
    containsSub ("v/".toList) ("https://youtuXbe/abc".toList) = false ∧
    extract_video_id ("https://youtuXbe/abc".toList) = some ("abc".toList) := by
  refine ⟨?_, ?_, ?_, ?_, ?_⟩ <;> decide

/-- C7 (amended): for every non-empty identifier over `[A-Za-z0-9_-]`,
each of the four supported URL shapes wrapping it extracts that
identifier; additionally any input of the form `youtu` + one arbitrary
character + `be/` + id extracts the id (the unescaped dot of the
`youtu.be` pattern); and an input containing none of the markers
`watch?v=`, `youtu` + any character + `be/`, `embed/`, `v/` yields
`none`. -/
theorem C7_url_shapes (id : List Char) (hne : id ≠ [])
    (hw : ∀ c ∈ id, isWordChar c = true) :
    extract_video_id (watchURL id) = some id ∧
    extract_video_id (shortURL id) = some id ∧
    extract_video_id (embedURL id) = some id ∧
    extract_video_id (vURL id) = some id ∧
    extract_video_id ("https://youtuXbe/".toList ++ id) = some id ∧
    ∀ url, containsSub ("watch?v=".toList) url = false →
      youtuAnyBe url = false →
      containsSub ("embed/".toList) url = false →
      containsSub ("v/".toList) url = false →
      extract_video_id url = none := by
  cases id with
  | nil => exact absurd rfl hne
  | cons c cs =>
    refine ⟨?_, ?_, ?_, ?_, ?_, ?_⟩
    · -- watch?v= shape
      apply extract_of_pat1
      have e : pat1Search (watchURL (c :: cs)) =
          pat1Search (watchMarker ++ (c :: cs)) := rfl
      rw [e]
      have halt : tryAlt1 (watchMarker ++ (c :: cs)) = some (c :: cs) := by
        unfold tryAlt1
        rw [dropLit_append]
        show firstWordRun (c :: cs) = some (c :: cs)
        exact firstWordRun_all c cs hw
      exact pat1Search_cons_of_alt1 halt
    · -- youtu.be shape
      apply extract_of_pat1
      have e : pat1Search (shortURL (c :: cs)) =
          pat1Search ("youtu.be/".toList ++ (c :: cs)) := rfl
      rw [e]
      have h1 : tryAlt1 ("youtu.be/".toList ++ (c :: cs)) = none := rfl
      have h2 : tryAlt2 ("youtu.be/".toList ++ (c :: cs)) = some (c :: cs) := by
        have hbe : youtuDotBeAt ("youtu.be/".toList ++ (c :: cs)) = some (c :: cs) := rfl
        unfold tryAlt2
        rw [hbe]
        show firstWordRun (c :: cs) = some (c :: cs)
        exact firstWordRun_all c cs hw
      exact pat1Search_cons_of_alt2 h1 h2
    · -- embed shape
      have hp : pat1Search (embedURL (c :: cs)) = none := by
        have e : pat1Search (embedURL (c :: cs)) = pat1Search (c :: cs) := rfl
        rw [e]
        exact pat1Search_none_wordOnly _ hw
      apply extract_of_embed hp
      have e : litSearch embedMarker (embedURL (c :: cs)) =
          litSearch embedMarker (embedMarker ++ (c :: cs)) := rfl
      rw [e]
      have hhit : (dropLit embedMarker (embedMarker ++ (c :: cs))).bind firstWordRun =
          some (c :: cs) := by
        rw [dropLit_append]
        show firstWordRun (c :: cs) = some (c :: cs)
        exact firstWordRun_all c cs hw
      exact litSearch_cons_of_hit hhit
    · -- v shape
      have hp : pat1Search (vURL (c :: cs)) = none := by
        have e : pat1Search (vURL (c :: cs)) = pat1Search (c :: cs) := rfl
        rw [e]
        exact pat1Search_none_wordOnly _ hw
      have hEm : litSearch embedMarker (vURL (c :: cs)) = none := by
        have e : litSearch embedMarker (vURL (c :: cs)) =
            litSearch embedMarker (c :: cs) := rfl
        rw [e]
        exact litSearch_none_wordOnly embedMarker ⟨'.', by decide, by decide⟩ _ hw
      rw [extract_of_v hp hEm]
      have e : litSearch vMarker (vURL (c :: cs)) =
          litSearch vMarker (vMarker ++ (c :: cs)) := rfl
      rw [e]
      have hhit : (dropLit vMarker (vMarker ++ (c :: cs))).bind firstWordRun =
          some (c :: cs) := by
        rw [dropLit_append]
        show firstWordRun (c :: cs) = some (c :: cs)
        exact firstWordRun_all c cs hw
      exact litSearch_cons_of_hit hhit
    · -- unescaped-dot input
      apply extract_of_pat1
      have e : pat1Search ("https://youtuXbe/".toList ++ (c :: cs)) =
          pat1Search ("youtuXbe/".toList ++ (c :: cs)) := rfl
      rw [e]
      have h1 : tryAlt1 ("youtuXbe/".toList ++ (c :: cs)) = none := rfl
      have h2 : tryAlt2 ("youtuXbe/".toList ++ (c :: cs)) = some (c :: cs) := by
        have hbe : youtuDotBeAt ("youtuXbe/".toList ++ (c :: cs)) = some (c :: cs) := rfl
        unfold tryAlt2
        rw [hbe]
        show firstWordRun (c :: cs) = some (c :: cs)
        exact firstWordRun_all c cs hw
      exact pat1Search_cons_of_alt2 h1 h2
    · -- no marker present anywhere
      intro url hwv hyb hem hvm
      have hp := pat1Search_none_of_not_contains url hwv hyb
      have h2 := litSearch_none_of_not_contains ("youtube.com/".toList)
        ("embed/".toList) embedMarker rfl url hem
      rw [extract_of_v hp h2]
      exact litSearch_none_of_not_contains ("youtube.com/".toList)
        ("v/".toList) vMarker rfl url hvm

/-- C7 (witness): the amended theorem at the concrete identifier `abc`. -/
theorem C7_witness :
    ("abc".toList ≠ []) ∧
    extract_video_id (watchURL ("abc".toList)) = some ("abc".toList) ∧
    extract_video_id (shortURL ("abc".toList)) = some ("abc".toList) :=
  ⟨by decide,
    (C7_url_shapes ("abc".toList) (by decide) (by decide)).1,
    (C7_url_shapes ("abc".toList) (by decide) (by decide)).2.1⟩

/-- C10: the extractor returns the maximal run of `[A-Za-z0-9_-]`
characters after the first matching marker — a suffix starting with any
character outside that class (e.g. `&t=10`) is stripped — and the markers
are matched as substrings anywhere in the input, not anchored at the
start. -/
theorem C10_maximal_run (c : Char) (cs suffix : List Char)
    (hw : ∀ x ∈ c :: cs, isWordChar x = true)
    (hsuf : headNonWord suffix = true) :
    extract_video_id (watchURL ((c :: cs) ++ suffix)) = some (c :: cs) ∧
    extract_video_id ("see ".toList ++ (watchMarker ++ ((c :: cs) ++ suffix))) =
      some (c :: cs) := by
  have halt : tryAlt1 (watchMarker ++ ((c :: cs) ++ suffix)) = some (c :: cs) := by
    unfold tryAlt1
    rw [dropLit_append]
    show firstWordRun ((c :: cs) ++ suffix) = some (c :: cs)
    exact firstWordRun_append c cs suffix hw hsuf
  constructor
  · apply extract_of_pat1
    have e : pat1Search (watchURL ((c :: cs) ++ suffix)) =
        pat1Search (watchMarker ++ ((c :: cs) ++ suffix)) := rfl
    rw [e]
    exact pat1Search_cons_of_alt1 halt
  · apply extract_of_pat1
    have e : pat1Search ("see ".toList ++ (watchMarker ++ ((c :: cs) ++ suffix))) =
        pat1Search (watchMarker ++ ((c :: cs) ++ suffix)) := rfl
    rw [e]
    exact pat1Search_cons_of_alt1 halt

/-- C10 (witness): `watch?v=abc&t=10` extracts `abc`. -/
theorem C10_witness :
    headNonWord ("&t=10".toList) = true ∧
    extract_video_id (watchURL ("abc&t=10".toList)) = some ("abc".toList) :=
  ⟨by decide,
    (C10_maximal_run 'a' ("bc".toList) ("&t=10".toList) (by decide) (by decide)).1⟩

/-- C3: the claim that every attempt's temporary file is deleted before
returning or retrying contradicts the code.  When attempt 0 downloads its
file but Whisper raises, the loop retries without deleting that file
(lines 73-77 contain no cleanup), and the `finally` block only removes the
file named by the *current* `temp_file` variable — the one of the last
attempt.  Here attempt 1 succeeds, yet attempt 0's file (index 0) is still
on disk after the call. -/
theorem C3_temp_file_leak :
    (transcribe_audio (AttemptResult.transcribeError ("whisper failed"))
        (AttemptResult.success ("hello")) AttemptResult.noStream).result =
      some ("hello") ∧
    (transcribe_audio (AttemptResult.transcribeError ("whisper failed"))
        (AttemptResult.success ("hello")) AttemptResult.noStream).disk = [0] := by
  exact ⟨rfl, rfl⟩

/-- C5 (counterexample): the claim that a missing audio stream fails
immediately with no retries is false: with no stream on any attempt the
loop still performs all 3 attempts and sleeps the backoff delays, because
the `raise` at line 53 happens inside the retried block. -/
theorem C5_counterexample :
    (transcribe_audio AttemptResult.noStream AttemptResult.noStream
        AttemptResult.noStream).attempts = 3 ∧
    (transcribe_audio AttemptResult.noStream AttemptResult.noStream
        AttemptResult.noStream).sleeps ≠ [] := by
  exact ⟨rfl, by decide⟩

/-- C5 (amended): the "no audio stream" error is raised inside the retry
loop and retried like any other failure: after a first no-stream attempt a
second attempt always runs, and if all 3 attempts find no stream the call
fails (returns `None`) with the no-stream cause shown, after 3 attempts
and backoff sleeps of 1s and 2s. -/
theorem C5_no_stream_retried :
    (∀ r1 r2 : AttemptResult,
      2 ≤ (transcribe_audio AttemptResult.noStream r1 r2).attempts) ∧
    (transcribe_audio AttemptResult.noStream AttemptResult.noStream
        AttemptResult.noStream).result = none ∧
    (transcribe_audio AttemptResult.noStream AttemptResult.noStream
        AttemptResult.noStream).attempts = 3 ∧
    (transcribe_audio AttemptResult.noStream AttemptResult.noStream
        AttemptResult.noStream).sleeps = [1, 2] ∧
    (transcribe_audio AttemptResult.noStream AttemptResult.noStream
        AttemptResult.noStream).errorShown =
      some ("Error transcribing audio: No audio stream available") := by
  refine ⟨?_, rfl, rfl, rfl, rfl⟩
  intro r1 r2
  cases r1 <;> cases r2 <;> simp [transcribe_audio, runRetries, attemptEffects]

/-- C6: the retry loop of `transcribe_audio` performs at most 3 attempts;
when all three fail it sleeps `2^0 = 1` second before the 2nd attempt and
`2^1 = 2` seconds before the 3rd, returns `None`, and the error shown
carries the message of the last attempt's exception. -/
theorem C6_retry_backoff :
    (∀ r0 r1 r2 : AttemptResult, (transcribe_audio r0 r1 r2).attempts ≤ 3) ∧
    ∀ r0 r1 r2 : AttemptResult,
      isSuccess r0 = false → isSuccess r1 = false → isSuccess r2 = false →
      (transcribe_audio r0 r1 r2).result = none ∧
      (transcribe_audio r0 r1 r2).attempts = 3 ∧
      (transcribe_audio r0 r1 r2).sleeps = [1, 2] ∧
      (transcribe_audio r0 r1 r2).errorShown =
        (attemptErrorMsg r2).map (fun m => ("Error transcribing audio: " ++ m)) := by
  constructor
  · intro r0 r1 r2
    cases r0 <;> cases r1 <;> cases r2 <;>
      simp [transcribe_audio, runRetries, attemptEffects]
  · intro r0 r1 r2 h0 h1 h2
    cases r0 <;> cases r1 <;> cases r2 <;>
      simp_all [transcribe_audio, runRetries, attemptEffects, attemptErrorMsg, isSuccess]

/-- C6 (witness): three concrete failing attempts — one attempt each of
no-stream, download failure and transcription failure — give exactly 3
attempts, backoff sleeps 1s and 2s, result `None`, and the last error in
the message. -/
theorem C6_witness :
    (transcribe_audio AttemptResult.noStream (AttemptResult.downloadError ("boom"))
        (AttemptResult.transcribeError ("bad"))).result = none ∧
    (transcribe_audio AttemptResult.noStream (AttemptResult.downloadError ("boom"))
        (AttemptResult.transcribeError ("bad"))).attempts = 3 ∧
    (transcribe_audio AttemptResult.noStream (AttemptResult.downloadError ("boom"))
        (AttemptResult.transcribeError ("bad"))).sleeps = [1, 2] ∧
    (transcribe_audio AttemptResult.noStream (AttemptResult.downloadError ("boom"))
        (AttemptResult.transcribeError ("bad"))).errorShown =
      some ("Error transcribing audio: bad") := by
  have h := C6_retry_backoff.2 AttemptResult.noStream
    (AttemptResult.downloadError ("boom")) (AttemptResult.transcribeError ("bad"))
    rfl rfl rfl
  refine ⟨h.1, h.2.1, h.2.2.1, ?_⟩
  rw [h.2.2.2]
  rfl

/-- C2: the claim that a caption listing without an English track falls
back to translating the first available track contradicts the code: the
`except` branch at line 98 calls `find_transcript(['en'])` again instead
of taking the first available track, so with a single French track the
caption path raises again and is abandoned (`none`), while the documented
behaviour (`specCaptionStage`, and the comment at line 97) would translate
the French track. -/
theorem C2_translation_fallback_bug :
    captionStage (frTrack :: []) = none ∧
    specCaptionStage (frTrack :: []) = some ("bonjour") := by
  exact ⟨rfl, rfl⟩

/-- C4 (counterexample): the claim that a successful resolution is never
whitespace-only is false: an English track whose caption text is a single
space resolves to `" "`, which is non-empty, hence truthy — the caller's
`if not transcript` check treats it as success — yet whitespace-only. -/
theorem C4_counterexample :
    get_video_transcript (some (enWsTrack :: [])) AttemptResult.noStream
        AttemptResult.noStream AttemptResult.noStream = some (" ") ∧
    isWhitespaceOnly (" ") = true ∧
    pythonTruthy (some (" ")) = true := by
  exact ⟨rfl, by decide, rfl⟩

/-- C4 (amended): transcript resolution performs no emptiness or
whitespace validation — whenever an English caption track is found, the
joined caption text is returned verbatim.  An empty result happens to be
falsy in Python and is therefore treated as a failure by the caller, but a
whitespace-only result is truthy and is treated as success. -/
theorem C4_no_content_check :
    (∀ (tracks : List CapTrack) (t : CapTrack) (r0 r1 r2 : AttemptResult),
      find_transcript (("en") :: []) tracks = some t →
      get_video_transcript (some tracks) r0 r1 r2 = some (joinSegments t)) ∧
    get_video_transcript (some (enEmptyTrack :: [])) AttemptResult.noStream
        AttemptResult.noStream AttemptResult.noStream = some ("") ∧
    pythonTruthy (some ("")) = false ∧
    pythonTruthy (some (" ")) = true := by
  refine ⟨?_, rfl, rfl, rfl⟩
  intro tracks t r0 r1 r2 h
  have hc : captionStage tracks = some (joinSegments t) := by
    unfold captionStage
    rw [h]
  simp [get_video_transcript, hc]

/-- C4 (witness): the amended theorem at the whitespace-only English
track. -/
theorem C4_witness :
    find_transcript (("en") :: []) (enWsTrack :: []) = some enWsTrack ∧
    get_video_transcript (some (enWsTrack :: [])) AttemptResult.noStream
        AttemptResult.noStream AttemptResult.noStream = some (joinSegments enWsTrack) :=
  ⟨rfl, C4_no_content_check.1 (enWsTrack :: []) enWsTrack
    AttemptResult.noStream AttemptResult.noStream AttemptResult.noStream rfl⟩

theorem containsList_here (sub r : List Char) : containsList (sub ++ r) sub :=
  ⟨[], r, rfl⟩

theorem containsList_append_left (x : List Char) {h sub : List Char}
    (hc : containsList h sub) : containsList (x ++ h) sub := by
  obtain ⟨l, r, e⟩ := hc
  exact ⟨x ++ l, r, by rw [e, List.append_assoc]⟩

theorem contentPromptOf_contains (style : String)
    (title ctx summary transcript : List Char) :
    containsList (contentPromptOf style title ctx summary transcript) title ∧
    containsList (contentPromptOf style title ctx summary transcript) ctx ∧
    containsList (contentPromptOf style title ctx summary transcript) summary ∧
    containsList (contentPromptOf style title ctx summary transcript) transcript := by
  unfold contentPromptOf
  refine ⟨?_, ?_, ?_, ?_⟩
  · exact containsList_append_left _ (containsList_append_left _
      (containsList_append_left _ (containsList_here _ _)))
  · exact containsList_append_left _ (containsList_append_left _
      (containsList_append_left _ (containsList_append_left _
        (containsList_append_left _ (containsList_here _ _)))))
  · exact containsList_append_left _ (containsList_append_left _
      (containsList_append_left _ (containsList_append_left _
        (containsList_append_left _ (containsList_append_left _
          (containsList_append_left _ (containsList_here _ _)))))))
  · exact containsList_append_left _ (containsList_append_left _
      (containsList_append_left _ (containsList_append_left _
        (containsList_append_left _ (containsList_append_left _
          (containsList_append_left _ (containsList_append_left _
            (containsList_append_left _ (containsList_here _ _)))))))))

/-- C8 (counterexample): the claim that the returned article always opens
with the exact caller-supplied title is false: the code returns the
compose call's model output verbatim (line 216) with no check or
prepending, so a model reply that does not begin with the title is
returned as-is. -/
theorem C8_counterexample :
    opensWith ("My Title".toList)
      ((generate_article_from_transcript constOracle ("My Title".toList)
        ("t".toList) none ("detailed")).article) = false := by
  decide

/-- C8 (amended): the compose-stage prompt contains the exact requested
title, the metadata context block, the stage-1 summary and the full
transcript text, and the returned article is exactly the model's reply to
the compose call — the instruction asks for the provided title but the
code does not enforce that the article opens with it. -/
theorem C8_prompt_contents (oracle : List Char → List Char → List Char)
    (title transcript : List Char) (vd : Option Snippet) (style : String) :
    containsList
      (generate_article_from_transcript oracle title transcript vd style).content_prompt
      title ∧
    containsList
      (generate_article_from_transcript oracle title transcript vd style).content_prompt
      (ctxOf vd) ∧
    containsList
      (generate_article_from_transcript oracle title transcript vd style).content_prompt
      ((generate_article_from_transcript oracle title transcript vd style).summary) ∧
    containsList
      (generate_article_from_transcript oracle title transcript vd style).content_prompt
      transcript ∧
    (generate_article_from_transcript oracle title transcript vd style).article =
      oracle (systemInstructionFor style)
        ((generate_article_from_transcript oracle title transcript vd style).content_prompt) := by
  have h := contentPromptOf_contains style title (ctxOf vd)
    (oracle summarizeSystem (summaryPromptOf (ctxOf vd) transcript)) transcript
  exact ⟨h.1, h.2.1, h.2.2.1, h.2.2.2, rfl⟩

/-- C9: a metadata fetch failure (API error, or an empty `items` list)
yields `None` rather than an exception, the `None` metadata produces an
empty context block (the context section is omitted from the prompts),
and generation with `None` metadata still completes, returning the
compose call's (non-empty) article. -/
theorem C9_metadata_best_effort :
    (∀ e : String, get_video_details (Except.error e) = none) ∧
    get_video_details (Except.ok []) = none ∧
    ctxOf none = [] ∧
    ∀ (oracle : List Char → List Char → List Char)
      (title transcript : List Char) (style : String),
      (∀ s u, oracle s u ≠ []) →
      (generate_article_from_transcript oracle title transcript none style).article ≠ [] := by
  refine ⟨fun e => rfl, rfl, rfl, ?_⟩
  intro oracle title transcript style h
  exact h _ _

/-- C9 (witness): a failing metadata call yields `None`, and generation
with `None` metadata and a non-empty model double returns a non-empty
article. -/
theorem C9_witness :
    get_video_details (Except.error ("quota exceeded")) = none ∧
    (generate_article_from_transcript (fun _ _ => ("ok").toList) ("T".toList)
      ("words".toList) none ("detailed")).article ≠ [] :=
  ⟨C9_metadata_best_effort.1 ("quota exceeded"),
    C9_metadata_best_effort.2.2.2 (fun _ _ => ("ok").toList) ("T".toList)
      ("words".toList) ("detailed") (fun _ _ => List.cons_ne_nil _ _)⟩

set_option maxRecDepth 16384 in
/-- C1: the claim that style DETAILED selects the detailed system
instruction cannot hold of the source as written: tokenizing the
module-level constant region (lines 138-151, `instrRegion`) the way
Python's lexer does shows that the stray opener at line 138 binds only
`SYSTEM_INSTRUCTION` (to the text of line 139), the region then fails to
parse, and in particular the name `SYSTEM_INSTRUCTION_DETAILED` — the
constant the selection at line 170 refers to for style `"detailed"` — is
never bound. -/
theorem C1_instruction_binding_bug :
    selectInstructionName ("detailed") = "SYSTEM_INSTRUCTION_DETAILED" ∧
    (collectBindings (splitTriple instrRegion.toList)).1 =
      ("SYSTEM_INSTRUCTION".toList) :: [] ∧
    (collectBindings (splitTriple instrRegion.toList)).2 = false := by
  exact ⟨rfl, rfl, rfl⟩

end Blog
